import Mathlib

/-!
Verification development for the ibeam gateway-session supervisor.

We shallowly embed the Python sources:
  * `ibeam/src/http_handler.py`   — `HttpHandler.try_request` and its inner `_request`
  * `ibeam/src/gateway_client.py` — `GatewayClient.try_starting`, `try_authenticating`,
                                    `_maintenance` and the scheduler interaction
  * `ibeam/src/two_fa_handlers/telegram_msg_handler.py`
                                  — `TelegramMessageHandler.http_request`, `alert_admins`
                                    and the 2FA-code extraction of `await_2fa_code`

Network I/O is modelled by passing in an environment: a function from the index of
the network call to its observable outcome.  Python exceptions are modelled with an
explicit exception type and `Except`, so that the coverage of the `except` clauses
is itself part of the model.  Recursions that Python bounds with a counter (or does
not bound at all) are embedded with an explicit fuel argument that is structurally
decreasing; the wrappers supply fuel large enough that the fuel bound is never the
reason a run stops, except where non-termination itself is the modelled behaviour.
-/

namespace IBeam

/-- The `(bool, bool, bool)` status tuple returned by `HttpHandler.try_request`:
`status[0]` gateway running, `status[1]` active session, `status[2]` authenticated. -/
structure SessionStatus where
  gatewayRunning : Bool
  activeSession : Bool
  authenticated : Bool
deriving DecidableEq, Repr

/-- The distinguishable categories of `str(e)` for `URLError` / `socket.timeout`
exceptions, as tested by the substring checks in `_request`. -/
inductive UrlReason where
  | noConnection     -- 'No connection could be made because the target machine actively refused it'
  | cannotAssign     -- 'Cannot assign requested address'
  | errnoZero        -- '[Errno 0] Error'
  | timedOut         -- 'timed out' / 'The read operation timed out'
  | connRefused      -- 'Connection refused'
  | forciblyClosed   -- 'An existing connection was forcibly closed by the remote host'
  | certSelfSigned   -- 'certificate verify failed: self signed certificate'
  | otherReason      -- anything else
deriving DecidableEq, Repr

/-- Python exceptions that the body of `_request` can raise. -/
inductive PyExc where
  | httpError (code : Nat) (msgHasInternal : Bool)  -- urllib HTTPError; flag: "internal" in str(e).lower()
  | urlErrorE (r : UrlReason)                       -- URLError or socket.timeout
  | connResetE (forciblyClosed : Bool)              -- ConnectionResetError
  | jsonError                                       -- json.loads / key lookup failed on the 200 body
  | otherE                                          -- any other exception
deriving DecidableEq, Repr

/-- Outcome of one `url_request` network call (plus body read/parse when reached):
either a response whose auth payload parses to `some b` (or `none` when the
`['iserver']['authStatus']['authenticated']` access would fail), or a raised exception. -/
inductive NetResult where
  | response (parsed : Option Bool)
  | raises (e : PyExc)
deriving DecidableEq, Repr

/-- The `try:` block of `_request`: perform the request; when `check_auth`, parse the
body for the authenticated flag, a failed parse raising into the handler chain. -/
def tryBody (check_auth : Bool) (n : NetResult) : Except PyExc SessionStatus :=
  match n with
  | .raises e => .error e
  | .response parsed =>
    if check_auth then
      match parsed with
      | some b => .ok ⟨true, true, b⟩
      | none => .error .jsonError
    else
      .ok ⟨true, true, true⟩

/-- What an `except` clause does: `return` a status directly, or assign `status`
and fall through to the retry logic at the bottom of `_request`. -/
inductive HandlerOut where
  | earlyReturn (s : SessionStatus)
  | setStatus (s : SessionStatus)
deriving DecidableEq, Repr

/-- The `except HTTPError` clause: 401 returns `(True, False, False)` silently;
500 with "internal" in the message sleeps and falls through with `status`
still `[False, False, False]`; any other code logs and returns `(True, False, False)`. -/
def exceptHTTPError : PyExc → Option HandlerOut
  | .httpError code msgHasInternal =>
    if code = 401 then some (.earlyReturn ⟨true, false, false⟩)
    else if code = 500 ∧ msgHasInternal = true then some (.setStatus ⟨false, false, false⟩)
    else some (.earlyReturn ⟨true, false, false⟩)
  | _ => none

/-- The substring-classification chain of the `except (URLError, socket.timeout)` clause. -/
def classifyUrlReason : UrlReason → SessionStatus
  | .noConnection => ⟨false, false, false⟩
  | .cannotAssign => ⟨false, false, false⟩
  | .errnoZero => ⟨false, false, false⟩
  | .timedOut => ⟨true, false, false⟩
  | .connRefused => ⟨true, false, false⟩
  | .forciblyClosed => ⟨false, false, false⟩
  | .certSelfSigned => ⟨false, false, false⟩
  | .otherReason => ⟨true, false, false⟩

/-- The `except (URLError, socket.timeout)` clause: classify and fall through. -/
def exceptURLError : PyExc → Option HandlerOut
  | .urlErrorE r => some (.setStatus (classifyUrlReason r))
  | _ => none

/-- The `except ConnectionResetError` clause: both branches set `[False, False, False]`. -/
def exceptConnReset : PyExc → Option HandlerOut
  | .connResetE _ => some (.setStatus ⟨false, false, false⟩)
  | _ => none

/-- The final `except Exception` clause: logs and sets `[False, False, False]`. -/
def exceptAll : PyExc → Option HandlerOut
  | _ => some (.setStatus ⟨false, false, false⟩)

/-- The handler chain of `_request`, in source order; `none` would mean the
exception escapes `try_request`. -/
def runHandlers (e : PyExc) : Option HandlerOut :=
  (exceptHTTPError e).orElse fun _ =>
    (exceptURLError e).orElse fun _ =>
      (exceptConnReset e).orElse fun _ =>
        exceptAll e

/-- One full attempt of `_request`: the `try:` body followed by the handler chain.
`Except.error` would be an exception escaping to the caller. -/
def attemptOnce (check_auth : Bool) (n : NetResult) : Except PyExc HandlerOut :=
  match tryBody check_auth n with
  | .ok s => .ok (.earlyReturn s)
  | .error e =>
    match runHandlers e with
    | some h => .ok h
    | none => .error e

/-- The status a handler outcome carries. -/
def houtStatus : HandlerOut → SessionStatus
  | .earlyReturn s => s
  | .setStatus s => s

/-- The status an attempt leaves `_request` with (early return, or the `status`
variable at the bottom), still wrapped in `Except` for an escaping exception. -/
def attemptStatusE (check_auth : Bool) (n : NetResult) : Except PyExc SessionStatus :=
  (attemptOnce check_auth n).map houtStatus

/-- The recursion of `_request(attempt)`, `net i` being the outcome of the
`i`-th network call.  The fuel argument makes the bounded recursion
structural; `try_request` passes `max_attempts` fuel, which the guard
`attempt >= max_attempts - 1` never lets run out. -/
def requestAuxE (check_auth : Bool) (max_attempts : Nat) (net : Nat → NetResult) :
    Nat → Nat → Except PyExc SessionStatus
  | 0, attempt => attemptStatusE check_auth (net attempt)
  | fuel + 1, attempt =>
    match attemptOnce check_auth (net attempt) with
    | .error e => .error e
    | .ok (.earlyReturn s) => .ok s
    | .ok (.setStatus s) =>
      if max_attempts ≤ 1 then .ok s
      else if max_attempts - 1 ≤ attempt then .ok s
      else requestAuxE check_auth max_attempts net fuel (attempt + 1)

/-- `HttpHandler.try_request(url, check_auth, max_attempts)`; the url is abstracted
into the environment `net`. -/
def try_request (net : Nat → NetResult) (check_auth : Bool) (max_attempts : Nat) :
    Except PyExc SessionStatus :=
  requestAuxE check_auth max_attempts net max_attempts 0

/-- Number of network calls a run of `_request` performs, counted alongside
`requestAuxE` with the same fuel discipline. -/
def countAux (check_auth : Bool) (max_attempts : Nat) (net : Nat → NetResult) :
    Nat → Nat → Nat
  | 0, _ => 1
  | fuel + 1, attempt =>
    match attemptOnce check_auth (net attempt) with
    | .error _ => 1
    | .ok (.earlyReturn _) => 1
    | .ok (.setStatus _) =>
      if max_attempts ≤ 1 then 1
      else if max_attempts - 1 ≤ attempt then 1
      else 1 + countAux check_auth max_attempts net fuel (attempt + 1)

/-- Network attempts performed by `try_request`. -/
def attemptsUsed (net : Nat → NetResult) (check_auth : Bool) (max_attempts : Nat) : Nat :=
  countAux check_auth max_attempts net max_attempts 0

/-- The invariant claimed of every status triple. -/
def statusInv (s : SessionStatus) : Prop :=
  (s.authenticated = true → s.activeSession = true) ∧
  (s.activeSession = true → s.gatewayRunning = true) ∧
  (s.gatewayRunning = false → s.activeSession = false ∧ s.authenticated = false)

instance (s : SessionStatus) : Decidable (statusInv s) := by
  unfold statusInv; infer_instance

/-! ## GatewayClient (`ibeam/src/gateway_client.py`) -/

/-- Observable trace of one `GatewayClient.try_authenticating` call: its
`(success, shutdown)` return value, whether `self._authenticate()` was invoked,
and whether the post-authentication re-probe (`get_status` at line 157) ran. -/
structure AuthTrace where
  outcome : Bool × Bool
  invokedAuthenticator : Bool
  reprobed : Bool
deriving DecidableEq, Repr

/-- `GatewayClient.try_authenticating`.  `s1` is the initial `get_status` result,
`authResult` the `(success, shutdown)` pair `_authenticate()` would return, and
`s2` the re-probe `get_status` result.  The diagnostic `get_auth_fail_reason`
fetch is logging-only with every exception swallowed, so it is not modelled. -/
def try_authenticating (s1 : SessionStatus) (authResult : Bool × Bool)
    (s2 : SessionStatus) : AuthTrace :=
  if s1.authenticated then
    ⟨(true, false), false, false⟩
  else if !s1.gatewayRunning then
    ⟨(false, false), false, false⟩
  else
    let success := authResult.1
    let shutdown := authResult.2
    if shutdown then ⟨(false, true), true, false⟩
    else if !success then ⟨(false, false), true, false⟩
    else if !s2.authenticated then ⟨(false, false), true, true⟩
    else ⟨(true, false), true, true⟩

/-- State of the maintenance scheduler: whether it is still running and how many
jobs are scheduled on it. -/
structure SchedulerState where
  running : Bool
  jobs : Nat
deriving DecidableEq, Repr

/-- `GatewayClient._maintenance`: the tick body observes the
`(success, shutdown)` outcome of `start_and_authenticate`; on `shutdown` it
calls `remove_all_jobs()` and `shutdown(False)` on the scheduler. -/
def maintenance (st : SchedulerState) (outcome : Bool × Bool) : SchedulerState :=
  if outcome.2 then { running := false, jobs := 0 } else st

/-- Modelled from the spec: the scheduling behaviour of the external
`BlockingScheduler` collaborator (not part of this repository's sources) —
a scheduled tick body only executes while the scheduler is running; once shut
down, no further ticks fire and the state no longer changes. -/
def scheduler_tick (st : SchedulerState) (outcome : Bool × Bool) : SchedulerState :=
  if st.running then maintenance st outcome else st

/-- Observable result of `GatewayClient.try_starting`: the returned pid (if any)
and the number of reachability probes performed by the startup polling loop. -/
structure StartTrace where
  pid : Option Nat
  polls : Nat
deriving DecidableEq, Repr

/-- The `while time.time() < t_end` polling loop of `try_starting`, discretised:
`probe k` is the `k`-th `try_request(base_url, False)` status and `window` the
number of one-second iterations `GATEWAY_STARTUP` allows.  Returns how many
probes ran and the final `ping_success`. -/
def pollLoop (probe : Nat → SessionStatus) : Nat → Nat → Nat × Bool
  | _, 0 => (0, false)
  | k, remaining + 1 =>
    if (probe k).gatewayRunning then (1, true)
    else
      let r := pollLoop probe (k + 1) remaining
      (1 + r.1, r.2)

/-- `GatewayClient.try_starting`.  `initial` are the pids found by the first
`find_procs_by_name`, `spawned` those found by the re-query after
`start_gateway`; `probe`/`window` drive the startup polling loop. -/
def try_starting (initial spawned : List Nat) (probe : Nat → SessionStatus)
    (window : Nat) : StartTrace :=
  match initial with
  | p :: _ => ⟨some p, 0⟩
  | [] =>
    match spawned with
    | [] => ⟨none, 0⟩
    | p :: _ => ⟨some p, (pollLoop probe 0 window).1⟩

/-! ## TelegramMessageHandler (`ibeam/src/two_fa_handlers/telegram_msg_handler.py`) -/

def MAXIMUM_RETRIES : Nat := 5

/-- Observable response of the Telegram API to one request: a 200 with a JSON
body (abstracted to a `Nat` payload), a 500, or another error status code. -/
inductive TgResp where
  | okResp (v : Nat)
  | serverError
  | errorCode (c : Nat)
deriving DecidableEq, Repr

/-- Result of running `TelegramMessageHandler.http_request`: a returned JSON
value, a raised `ConnectionError` (retry budget exceeded), a raised
`ValueError` (invalid request type), or fuel exhaustion — the marker that the
recursion did not terminate within the given fuel. -/
inductive TgResult where
  | ok (v : Nat)
  | connError
  | valueError
  | outOfFuel
deriving DecidableEq, Repr

/-- `TelegramMessageHandler.http_request(_type, url, data, _try, retry_delay)`.
`server i` is the response to the `i`-th actual HTTP call of this invocation;
the url and payload are abstracted into `server`.  A 500 retries after
`retry_delay` without incrementing `_try` and scales the delay by 1.1; any
other non-200 code retries with `_try + 1` and delay × 1.5; `_try` above
`MAXIMUM_RETRIES` raises `ConnectionError` before any call is made. -/
def http_request (server : Nat → TgResp) :
    Nat → String → Nat → Nat → ℚ → TgResult
  | 0, _, _, _, _ => .outOfFuel
  | fuel + 1, ty, reqIdx, t, retry_delay =>
    if MAXIMUM_RETRIES < t then .connError
    else if ty = "GET" ∨ ty = "POST" then
      match server reqIdx with
      | .okResp v => .ok v
      | .serverError =>
        http_request server fuel ty (reqIdx + 1) t (retry_delay * (11 / 10))
      | .errorCode _ =>
        http_request server fuel ty (reqIdx + 1) (t + 1) (retry_delay * (3 / 2))
    else .valueError

/-- Result of `alert_admins`: either the loop completed, or an exception from
`http_request` escaped after the listed admins had been attempted, or a send
ran out of fuel (modelled non-termination). -/
inductive AlertResult where
  | completed (attempted : List String)
  | raisedConn (attempted : List String)
  | raisedVal (attempted : List String)
  | outOfFuel (attempted : List String)
deriving DecidableEq, Repr

/-- One `sendMessage` POST of `alert_admins` for a given admin, with the admin's
server behaviour `net admin`; `_try` starts at 1 and `retry_delay` at 1. -/
def sendMessage (net : String → Nat → TgResp) (fuel : Nat) (admin : String) : TgResult :=
  http_request (net admin) fuel "POST" 0 1 1

/-- `TelegramMessageHandler.alert_admins`: iterate over the admin ids in order,
sending to each; an exception raised by `http_request` propagates out of the
`for` loop, so later admins are not attempted. -/
def alert_admins (net : String → Nat → TgResp) (fuel : Nat) :
    List String → AlertResult
  | [] => .completed []
  | a :: rest =>
    match sendMessage net fuel a with
    | .ok _ =>
      match alert_admins net fuel rest with
      | .completed l => .completed (a :: l)
      | .raisedConn l => .raisedConn (a :: l)
      | .raisedVal l => .raisedVal (a :: l)
      | .outOfFuel l => .outOfFuel (a :: l)
    | .connError => .raisedConn [a]
    | .valueError => .raisedVal [a]
    | .outOfFuel => .outOfFuel [a]

/-! ## 2FA code extraction (`await_2fa_code`)

Python strings are modelled as `List Char`; the builtins used by
`message.lower().strip().replace(" ", "").split("code:")[1]` are defined below. -/

/-- Python `str.lower()` (ASCII case mapping suffices for this code base). -/
def pyLower (s : List Char) : List Char := s.map Char.toLower

/-- Python `str.strip()`: drop leading and trailing whitespace. -/
def pyStrip (s : List Char) : List Char :=
  ((s.dropWhile Char.isWhitespace).reverse.dropWhile Char.isWhitespace).reverse

/-- Python `str.replace(" ", "")`: remove every space character. -/
def pyRemoveSpaces (s : List Char) : List Char := s.filter (fun c => c ≠ ' ')

/-- Python `"sub" in s`: substring containment. -/
def hasSub (pat : List Char) : List Char → Bool
  | [] => pat.isEmpty
  | x :: xs => pat.isPrefixOf (x :: xs) || hasSub pat xs

/-- Worker for Python `str.split(sep)` with non-empty separator `c :: cs`;
fuel makes the recursion structural (any fuel ≥ length of the input makes
the fuel case unreachable). -/
def splitGoF (c : Char) (cs : List Char) : Nat → List Char → List (List Char)
  | 0, s => [s]
  | fuel + 1, s =>
    match s with
    | [] => [[]]
    | x :: xs =>
      if (c :: cs).isPrefixOf (x :: xs) then
        [] :: splitGoF c cs fuel (xs.drop cs.length)
      else
        match splitGoF c cs fuel xs with
        | [] => [[x]]
        | h :: t => (x :: h) :: t

/-- Python `str.split(sep)` for a non-empty separator (Python raises on an empty
separator; that case is modelled as no split and never used). -/
def pySplitOn (pat s : List Char) : List (List Char) :=
  match pat with
  | [] => [s]
  | c :: cs => splitGoF c cs (s.length + 1) s

/-- The characters strictly before the first occurrence of `c :: cs` (the whole
list when there is none). -/
def chunkBefore (c : Char) (cs : List Char) : List Char → List Char
  | [] => []
  | x :: xs =>
    if (c :: cs).isPrefixOf (x :: xs) then []
    else x :: chunkBefore c cs xs

/-- The characters strictly after the first occurrence of `c :: cs`, when any. -/
def tailAfter (c : Char) (cs : List Char) : List Char → Option (List Char)
  | [] => none
  | x :: xs =>
    if (c :: cs).isPrefixOf (x :: xs) then some (xs.drop cs.length)
    else tailAfter c cs xs

/-- The `"code:"` marker. -/
def code_marker : List Char := ['c', 'o', 'd', 'e', ':']

/-- The code extraction of `await_2fa_code` for one inbound message: the update
is considered only when `"code:" in message.lower()`; the `try:` block then
evaluates `message.lower().strip().replace(" ", "").split("code:")[1]`, the
index access raising (and the update being recorded as failed) when the split
yields fewer than two parts — modelled by the `Option`. -/
def extract_code (message : List Char) : Option (List Char) :=
  if hasSub code_marker (pyLower message) then
    (pySplitOn code_marker (pyRemoveSpaces (pyStrip (pyLower message)))).get? 1
  else none

/-- Index of the first position of `message` where the (case-insensitively
matched) marker starts. -/
def firstMarkerIdx (pat : List Char) : List Char → Option Nat
  | [] => if pat.isEmpty then some 0 else none
  | x :: xs =>
    if pat.isPrefixOf (x :: xs) then some 0
    else (firstMarkerIdx pat xs).map (· + 1)

/-- The claim's reading of the extraction, stated from the spec's words: the
substring of the message text after the (case-insensitive) `"code:"` marker,
with surrounding whitespace trimmed. -/
def spec_extract (message : List Char) : Option (List Char) :=
  (firstMarkerIdx code_marker (pyLower message)).map
    (fun i => pyStrip (message.drop (i + code_marker.length)))

/-! ## Concrete environments used to instantiate the theorems -/

/-- A gateway that always answers 200 with an authenticated payload. -/
def netAuthOk : Nat → NetResult := fun _ => .response (some true)

/-- A gateway whose port is closed: every call raises a connection-refused `URLError`. -/
def netDown : Nat → NetResult := fun _ => .raises (.urlErrorE .noConnection)

/-- A gateway that is up but not serving: OS-level 'Connection refused' every time. -/
def netNotServing : Nat → NetResult := fun _ => .raises (.urlErrorE .connRefused)

/-- A gateway that always answers HTTP 401. -/
def net401 : Nat → NetResult := fun _ => .raises (.httpError 401 false)

/-- A startup probe that never sees the gateway reachable. -/
def probeDown : Nat → SessionStatus := fun _ => ⟨false, false, false⟩

/-- A Telegram API that always answers 404 to admin "a" and 200 to everyone else. -/
def tgNetCex : String → Nat → TgResp :=
  fun a => if a = "a" then fun _ => .errorCode 404 else fun _ => .okResp 0

/-- A Telegram API that always answers 200. -/
def tgNetOk : String → Nat → TgResp := fun _ _ => .okResp 0

/-- A Telegram API that always answers 500. -/
def tgServer500 : Nat → TgResp := fun _ => .serverError

/-- The spec's Scenario D message: `"code: 12345678"` with surrounding spaces and
mixed case. -/
def scenarioMsg : List Char := "  cOdE: 12345678  ".toList

/-- A message with an upper-case letter and an internal space after the marker. -/
def cexMsg : List Char := "  Code: AB 12  ".toList

/-! ## Helper lemmas about `try_request` -/

/-- The handler chain never lets an exception through: the final
`except Exception` clause maps every exception to a fall-through status. -/
theorem runHandlers_isSome (e : PyExc) : ∃ h, runHandlers e = some h := by
  unfold runHandlers exceptHTTPError exceptURLError exceptConnReset exceptAll
  cases e <;> simp [Option.orElse]
  split <;> simp

/-- One attempt of `_request` always produces a handler outcome, never an
escaping exception. -/
theorem attemptOnce_ok (ca : Bool) (n : NetResult) : ∃ h, attemptOnce ca n = .ok h := by
  unfold attemptOnce
  cases hb : tryBody ca n with
  | ok s => exact ⟨.earlyReturn s, rfl⟩
  | error e =>
    obtain ⟨h, hh⟩ := runHandlers_isSome e
    exact ⟨h, by simp [hh]⟩

/-- Every status an `except` clause can produce satisfies the invariant. -/
theorem runHandlers_inv (e : PyExc) (h : HandlerOut)
    (hr : runHandlers e = some h) : statusInv (houtStatus h) := by
  unfold runHandlers exceptHTTPError exceptURLError exceptConnReset exceptAll at hr
  rcases e with ⟨code, flag⟩ | r | fc | _ | _
  · simp [Option.orElse] at hr
    split_ifs at hr <;> simp at hr <;> rw [← hr] <;> decide
  · cases r <;> simp [Option.orElse, classifyUrlReason] at hr <;> rw [← hr] <;> decide
  · simp [Option.orElse] at hr; rw [← hr]; decide
  · simp [Option.orElse] at hr; rw [← hr]; decide
  · simp [Option.orElse] at hr; rw [← hr]; decide

/-- Every status a single attempt can leave `_request` with satisfies the
`authenticated ⇒ active ⇒ reachable` invariant. -/
theorem attemptOnce_inv (ca : Bool) (n : NetResult) (h : HandlerOut)
    (he : attemptOnce ca n = .ok h) : statusInv (houtStatus h) := by
  unfold attemptOnce at he
  cases hb : tryBody ca n with
  | ok s =>
    rw [hb] at he
    simp at he
    subst he
    unfold tryBody at hb
    rcases n with p | e
    · rcases ca with _ | _
      · simp at hb; rw [← hb]; decide
      · rcases p with _ | b
        · simp at hb
        · simp at hb; rw [← hb]; cases b <;> decide
    · simp at hb
  | error e =>
    rw [hb] at he
    have he2 : (match runHandlers e with
        | some h => Except.ok h
        | none => Except.error e) = Except.ok h := he
    cases hr : runHandlers e with
    | none => rw [hr] at he2; simp at he2
    | some h0 =>
      rw [hr] at he2
      simp at he2
      subst he2
      exact runHandlers_inv e h0 hr

/-- Any `ok` result of the `_request` recursion satisfies the status invariant. -/
theorem requestAuxE_inv (ca : Bool) (ma : Nat) (net : Nat → NetResult) :
    ∀ fuel attempt s, requestAuxE ca ma net fuel attempt = .ok s → statusInv s := by
  intro fuel
  induction fuel with
  | zero =>
    intro attempt s hs
    unfold requestAuxE attemptStatusE at hs
    cases ho : attemptOnce ca (net attempt) with
    | ok h =>
      rw [ho] at hs
      simp [Except.map] at hs
      subst hs
      exact attemptOnce_inv ca (net attempt) h ho
    | error e => rw [ho] at hs; simp [Except.map] at hs
  | succ fuel ih =>
    intro attempt s hs
    unfold requestAuxE at hs
    cases ho : attemptOnce ca (net attempt) with
    | error e => rw [ho] at hs; simp at hs
    | ok h =>
      rw [ho] at hs
      cases h with
      | earlyReturn s0 =>
        simp at hs; subst hs
        exact attemptOnce_inv ca (net attempt) _ ho
      | setStatus s0 =>
        simp at hs
        split at hs
        · simp at hs; subst hs; exact attemptOnce_inv ca (net attempt) _ ho
        · split at hs
          · simp at hs; subst hs; exact attemptOnce_inv ca (net attempt) _ ho
          · exact ih (attempt + 1) s hs

/-- A run of `_request` makes at least one network call. -/
theorem countAux_pos (ca : Bool) (ma : Nat) (net : Nat → NetResult) :
    ∀ fuel attempt, 1 ≤ countAux ca ma net fuel attempt := by
  intro fuel attempt
  cases fuel with
  | zero => simp [countAux]
  | succ f =>
    unfold countAux
    cases attemptOnce ca (net attempt) with
    | error e => simp
    | ok h =>
      cases h with
      | earlyReturn s => simp
      | setStatus s =>
        simp only
        split_ifs <;> omega

/-- `try_request` returns exactly what its final attempt produced. -/
theorem requestAuxE_eq_last (ca : Bool) (ma : Nat) (net : Nat → NetResult) :
    ∀ fuel attempt,
      requestAuxE ca ma net fuel attempt =
        attemptStatusE ca (net (attempt + countAux ca ma net fuel attempt - 1)) := by
  intro fuel
  induction fuel with
  | zero => intro attempt; simp [requestAuxE, countAux]
  | succ f ih =>
    intro attempt
    unfold requestAuxE countAux
    cases ho : attemptOnce ca (net attempt) with
    | error e => simp [attemptStatusE, ho, Except.map]
    | ok h =>
      cases h with
      | earlyReturn s => simp [attemptStatusE, ho, Except.map, houtStatus]
      | setStatus s =>
        simp only
        split_ifs with h1 h2
        · simp [attemptStatusE, ho, Except.map, houtStatus]
        · simp [attemptStatusE, ho, Except.map, houtStatus]
        · rw [ih (attempt + 1)]
          have hidx : attempt + 1 + countAux ca ma net f (attempt + 1) - 1 =
              attempt + (1 + countAux ca ma net f (attempt + 1)) - 1 := by omega
          rw [hidx]

/-- With `max_attempts <= 1` every run makes exactly one network call. -/
theorem countAux_eq_one (ca : Bool) (ma : Nat) (net : Nat → NetResult) (hma : ma ≤ 1) :
    ∀ fuel attempt, countAux ca ma net fuel attempt = 1 := by
  intro fuel attempt
  cases fuel with
  | zero => rfl
  | succ f =>
    unfold countAux
    cases attemptOnce ca (net attempt) with
    | error e => rfl
    | ok h =>
      cases h with
      | earlyReturn s => rfl
      | setStatus s => simp [hma]

/-- With `max_attempts > 1` a run starting at `attempt` makes at most
`max_attempts - attempt` network calls. -/
theorem countAux_le (ca : Bool) (ma : Nat) (net : Nat → NetResult) (hma : 1 < ma) :
    ∀ fuel attempt, attempt < ma → countAux ca ma net fuel attempt ≤ ma - attempt := by
  intro fuel
  induction fuel with
  | zero => intro attempt h; simp [countAux]; omega
  | succ f ih =>
    intro attempt h
    unfold countAux
    cases attemptOnce ca (net attempt) with
    | error e => simp; omega
    | ok hh =>
      cases hh with
      | earlyReturn s => simp; omega
      | setStatus s =>
        simp only
        split_ifs with h1 h2
        · omega
        · omega
        · have := ih (attempt + 1) (by omega)
          omega

/-! ## Claim theorems -/

/-- C1: every `SessionStatus` triple returned by `HttpHandler.try_request` — for
any network environment, `check_auth` flag and `max_attempts` — satisfies
`authenticated ⇒ sessionActive ⇒ gatewayReachable`, and when
`gatewayReachable` is false the other two components are also false. -/
theorem try_request_status_invariant (net : Nat → NetResult) (ca : Bool)
    (ma : Nat) (s : SessionStatus) (h : try_request net ca ma = .ok s) :
    (s.authenticated = true → s.activeSession = true) ∧
    (s.activeSession = true → s.gatewayRunning = true) ∧
    (s.gatewayRunning = false → s.activeSession = false ∧ s.authenticated = false) :=
  requestAuxE_inv ca ma net ma 0 s h

/-- Closed instance of C1 at a concrete environment. -/
theorem try_request_status_invariant_witness :
    try_request netAuthOk true 2 = Except.ok ⟨true, true, true⟩ ∧
    ((SessionStatus.mk true true true).authenticated = true →
      (SessionStatus.mk true true true).activeSession = true) ∧
    ((SessionStatus.mk true true true).activeSession = true →
      (SessionStatus.mk true true true).gatewayRunning = true) ∧
    ((SessionStatus.mk true true true).gatewayRunning = false →
      (SessionStatus.mk true true true).activeSession = false ∧
      (SessionStatus.mk true true true).authenticated = false) :=
  ⟨rfl, try_request_status_invariant netAuthOk true 2 ⟨true, true, true⟩ rfl⟩

/-- The `_request` recursion always yields a status, never an escaping exception. -/
theorem requestAuxE_ok (ca : Bool) (ma : Nat) (net : Nat → NetResult) :
    ∀ fuel attempt, ∃ s, requestAuxE ca ma net fuel attempt = .ok s := by
  intro fuel
  induction fuel with
  | zero =>
    intro attempt
    obtain ⟨h, hh⟩ := attemptOnce_ok ca (net attempt)
    exact ⟨houtStatus h, by simp [requestAuxE, attemptStatusE, hh, Except.map]⟩
  | succ f ih =>
    intro attempt
    unfold requestAuxE
    obtain ⟨h, hh⟩ := attemptOnce_ok ca (net attempt)
    rw [hh]
    cases h with
    | earlyReturn s => exact ⟨s, rfl⟩
    | setStatus s =>
      simp only
      split_ifs
      · exact ⟨s, rfl⟩
      · exact ⟨s, rfl⟩
      · exact ih (attempt + 1)

/-- C6: `try_request` never lets an exception escape: for every environment —
including transport errors, protocol errors and a 200 body that fails to parse
for the authenticated field — it returns a `SessionStatus` triple. -/
theorem try_request_never_raises (net : Nat → NetResult) (ca : Bool) (ma : Nat) :
    ∃ s, try_request net ca ma = .ok s :=
  requestAuxE_ok ca ma net ma 0

/-- C2: with `max_attempts <= 1` exactly one network attempt is made regardless
of outcome; with `max_attempts = N > 1` at most N attempts are made; and the
value returned is always the status produced by the final attempt (in
particular when the budget is exhausted). -/
theorem try_request_attempt_budget (net : Nat → NetResult) (ca : Bool) (ma : Nat) :
    (ma ≤ 1 → attemptsUsed net ca ma = 1) ∧
    (1 < ma → attemptsUsed net ca ma ≤ ma) ∧
    try_request net ca ma = attemptStatusE ca (net (attemptsUsed net ca ma - 1)) := by
  refine ⟨fun h => ?_, fun h => ?_, ?_⟩
  · exact countAux_eq_one ca ma net h ma 0
  · have := countAux_le ca ma net h ma 0 (by omega)
    unfold attemptsUsed
    omega
  · have := requestAuxE_eq_last ca ma net ma 0
    unfold try_request attemptsUsed
    simpa using this

/-- Closed instance of C2: one attempt when `max_attempts = 1` against a dead
gateway; at most 3 attempts, and the final attempt status returned, when
`max_attempts = 3`. -/
theorem try_request_attempt_budget_witness :
    attemptsUsed netDown false 1 = 1 ∧
    attemptsUsed netDown false 3 ≤ 3 ∧
    try_request netDown false 3 = attemptStatusE false (netDown (attemptsUsed netDown false 3 - 1)) :=
  ⟨(try_request_attempt_budget netDown false 1).1 (by decide),
   (try_request_attempt_budget netDown false 3).2.1 (by decide),
   (try_request_attempt_budget netDown false 3).2.2⟩

/-- C3 fails on the code: with `max_attempts = 3`, a successful response and an
HTTP 401 each return from `try_request` after a single attempt — the `return`
statements inside the `try`/`except` clauses bypass the retry loop, so there
IS an early exit on these classifications. -/
theorem try_request_no_early_exit_counterexample :
    attemptsUsed netAuthOk true 3 = 1 ∧
    attemptsUsed net401 true 3 = 1 ∧
    (1 : Nat) ≠ 3 := by decide

/-- When every attempt falls through to the shared retry logic, the budget is
fully consumed and the final attempt's status is returned. -/
theorem countAux_all_fallthrough (ca : Bool) (ma : Nat) (net : Nat → NetResult)
    (hma : 1 < ma) :
    ∀ fuel attempt, attempt < ma → ma - 1 - attempt ≤ fuel →
      (∀ i, attempt ≤ i → i < ma → ∃ s, attemptOnce ca (net i) = .ok (.setStatus s)) →
      countAux ca ma net fuel attempt = ma - attempt ∧
      requestAuxE ca ma net fuel attempt = attemptStatusE ca (net (ma - 1)) := by
  intro fuel
  induction fuel with
  | zero =>
    intro attempt ha hf hall
    have heq : attempt = ma - 1 := by omega
    subst heq
    exact ⟨by simp [countAux]; omega, by simp [requestAuxE]⟩
  | succ f ih =>
    intro attempt ha hf hall
    obtain ⟨s, hs⟩ := hall attempt (Nat.le_refl attempt) ha
    unfold countAux requestAuxE
    rw [hs]
    simp only
    split_ifs with h1 h2
    · exact absurd h1 (by omega)
    · have heq : attempt = ma - 1 := by omega
      subst heq
      exact ⟨by omega, by simp [attemptStatusE, hs, Except.map, houtStatus]⟩
    · obtain ⟨hc, hr⟩ := ih (attempt + 1) (by omega) (by omega)
        (fun i hi hi2 => hall i (by omega) hi2)
      exact ⟨by omega, hr⟩

/-- C3 as amended: with `max_attempts = N > 1`, only the outcomes that assign
`status` and fall through (HTTP 500 "internal", URLError/socket.timeout,
ConnectionResetError, unrecognised exceptions) re-enter the retry loop until
the N-attempt budget is exhausted, in which case the final attempt's status is
returned; a successful response, an HTTP 401 and any other HTTP error exit
after the current attempt. -/
theorem try_request_retry_classification (net : Nat → NetResult) (ca : Bool)
    (N : Nat) (hN : 1 < N) :
    (∀ s, attemptOnce ca (net 0) = .ok (.earlyReturn s) →
      attemptsUsed net ca N = 1 ∧ try_request net ca N = .ok s) ∧
    ((∀ i, i < N → ∃ s, attemptOnce ca (net i) = .ok (.setStatus s)) →
      attemptsUsed net ca N = N ∧
      ∃ s, attemptOnce ca (net (N - 1)) = .ok (.setStatus s) ∧
        try_request net ca N = .ok s) := by
  constructor
  · intro s hs
    cases N with
    | zero => omega
    | succ n =>
      unfold attemptsUsed try_request countAux requestAuxE
      rw [hs]
      exact ⟨rfl, rfl⟩
  · intro hall
    obtain ⟨hc, hr⟩ := countAux_all_fallthrough ca N net hN N 0 (by omega) (by omega)
      (fun i hi hi2 => hall i hi2)
    obtain ⟨s, hs⟩ := hall (N - 1) (by omega)
    refine ⟨by simpa using hc, s, hs, ?_⟩
    unfold try_request
    rw [hr]
    simp [attemptStatusE, hs, Except.map, houtStatus]

/-- Closed instance of C3 as amended: an authenticated 200 exits after one
attempt; a dead gateway consumes all three attempts and the third status is
returned. -/
theorem try_request_retry_classification_witness :
    (attemptsUsed netAuthOk true 3 = 1 ∧
      try_request netAuthOk true 3 = .ok ⟨true, true, true⟩) ∧
    (attemptsUsed netDown true 3 = 3 ∧
      ∃ s, attemptOnce true (netDown 2) = .ok (.setStatus s) ∧
        try_request netDown true 3 = .ok s) :=
  ⟨(try_request_retry_classification netAuthOk true 3 (by decide)).1 ⟨true, true, true⟩ rfl,
   (try_request_retry_classification netDown true 3 (by decide)).2
     (fun i hi => ⟨⟨false, false, false⟩, rfl⟩)⟩

/-- C4: when the initial probe (a `try_request` result) reports authenticated,
`try_authenticating` returns `(True, False)`; when it reports the gateway
unreachable, it returns `(False, False)` without invoking the authenticator. -/
theorem try_authenticating_initial_probe (net : Nat → NetResult) (ma : Nat)
    (auth : Bool × Bool) (s2 : SessionStatus) (s1 : SessionStatus)
    (h : try_request net true ma = .ok s1) :
    (s1.authenticated = true →
      (try_authenticating s1 auth s2).outcome = (true, false)) ∧
    (s1.gatewayRunning = false →
      (try_authenticating s1 auth s2).outcome = (false, false) ∧
      (try_authenticating s1 auth s2).invokedAuthenticator = false) := by
  have hinv := requestAuxE_inv true ma net ma 0 s1 h
  constructor
  · intro hauth
    simp [try_authenticating, hauth]
  · intro hrun
    obtain ⟨ha2, hf2⟩ := hinv.2.2 hrun
    simp [try_authenticating, hf2, hrun]

/-- Closed instance of C4: an authenticated probe short-circuits to success; an
unreachable probe returns failure with the authenticator not invoked. -/
theorem try_authenticating_initial_probe_witness :
    (try_authenticating ⟨true, true, true⟩ (false, false) ⟨false, false, false⟩).outcome
      = (true, false) ∧
    ((try_authenticating ⟨false, false, false⟩ (false, false) ⟨false, false, false⟩).outcome
      = (false, false) ∧
     (try_authenticating ⟨false, false, false⟩ (false, false) ⟨false, false, false⟩).invokedAuthenticator
      = false) :=
  ⟨(try_authenticating_initial_probe netAuthOk 1 (false, false) ⟨false, false, false⟩
      ⟨true, true, true⟩ rfl).1 rfl,
   (try_authenticating_initial_probe netDown 1 (false, false) ⟨false, false, false⟩
      ⟨false, false, false⟩ rfl).2 rfl⟩

/-- C5: a fatal authenticator outcome makes `try_authenticating` return
`(False, True)` at once without the re-probe; a maintenance tick observing a
fatal outcome removes all jobs and shuts the scheduler down; and a stopped
scheduler never changes again under any further sequence of outcomes. -/
theorem fatal_outcome_stops_maintenance :
    (∀ s1 s2 : SessionStatus, ∀ succ : Bool,
      s1.authenticated = false → s1.gatewayRunning = true →
      try_authenticating s1 (succ, true) s2 = ⟨(false, true), true, false⟩) ∧
    (∀ st : SchedulerState, ∀ o : Bool × Bool, st.running = true → o.2 = true →
      scheduler_tick st o = ⟨false, 0⟩) ∧
    (∀ st : SchedulerState, st.running = false →
      ∀ os : List (Bool × Bool), os.foldl scheduler_tick st = st) := by
  refine ⟨?_, ?_, ?_⟩
  · intro s1 s2 succ h1 h2
    simp [try_authenticating, h1, h2]
  · intro st o hr ho
    simp [scheduler_tick, maintenance, hr, ho]
  · intro st hst os
    induction os with
    | nil => rfl
    | cons o os ih =>
      simp only [List.foldl, scheduler_tick, hst]
      simpa [scheduler_tick, hst] using ih

/-- Closed instance of C5. -/
theorem fatal_outcome_stops_maintenance_witness :
    try_authenticating ⟨true, false, false⟩ (false, true) ⟨false, false, false⟩
      = ⟨(false, true), true, false⟩ ∧
    scheduler_tick ⟨true, 1⟩ (false, true) = ⟨false, 0⟩ ∧
    [((false : Bool), (true : Bool)), (true, false)].foldl scheduler_tick ⟨false, 0⟩
      = ⟨false, 0⟩ :=
  ⟨fatal_outcome_stops_maintenance.1 ⟨true, false, false⟩ ⟨false, false, false⟩ false rfl rfl,
   fatal_outcome_stops_maintenance.2.1 ⟨true, 1⟩ (false, true) rfl rfl,
   fatal_outcome_stops_maintenance.2.2 ⟨false, 0⟩ rfl _⟩

/-- C7 fails on the code: the startup polling loop lives inside the
"process not found" branch of `try_starting`, so a pre-existing gateway
process is returned immediately with zero reachability polls even when the
gateway is unreachable and the window is positive. -/
theorem try_starting_no_poll_counterexample :
    try_starting [7] [] probeDown 5 = ⟨some 7, 0⟩ ∧ (0 : Nat) ≠ 5 := by decide

/-- A polling loop that never sees the gateway reachable runs the whole window. -/
theorem pollLoop_unreachable (probe : Nat → SessionStatus) :
    ∀ w k, (∀ j, k ≤ j → j < k + w → (probe j).gatewayRunning = false) →
      pollLoop probe k w = (w, false) := by
  intro w
  induction w with
  | zero => intro k _; rfl
  | succ w ih =>
    intro k hall
    unfold pollLoop
    rw [hall k (Nat.le_refl k) (by omega)]
    simp only [Bool.false_eq_true, if_false]
    rw [ih (k + 1) (fun j h1 h2 => hall j (by omega) (by omega))]
    simp [Nat.add_comm]

/-- C7 as amended: polling happens only when the gateway process was just
spawned; a pre-existing process is returned at once with no polling, an empty
re-query returns `None`, a spawned process with an unreachable gateway is
polled for the whole window and its pid still returned, and polling stops as
soon as the gateway is reachable. -/
theorem try_starting_poll_behavior :
    (∀ p : Nat, ∀ rest sp : List Nat, ∀ probe : Nat → SessionStatus, ∀ w,
      try_starting (p :: rest) sp probe w = ⟨some p, 0⟩) ∧
    (∀ probe : Nat → SessionStatus, ∀ w, try_starting [] [] probe w = ⟨none, 0⟩) ∧
    (∀ p : Nat, ∀ rest : List Nat, ∀ probe : Nat → SessionStatus, ∀ w,
      (∀ k, k < w → (probe k).gatewayRunning = false) →
      try_starting [] (p :: rest) probe w = ⟨some p, w⟩) ∧
    (∀ p : Nat, ∀ rest : List Nat, ∀ probe : Nat → SessionStatus, ∀ w,
      0 < w → (probe 0).gatewayRunning = true →
      try_starting [] (p :: rest) probe w = ⟨some p, 1⟩) := by
  refine ⟨fun p rest sp probe w => rfl, fun probe w => rfl, ?_, ?_⟩
  · intro p rest probe w hall
    unfold try_starting
    rw [pollLoop_unreachable probe w 0 (fun j h1 h2 => hall j (by omega))]
  · intro p rest probe w hw hp
    cases w with
    | zero => omega
    | succ w =>
      unfold try_starting pollLoop
      rw [hp]
      simp

/-- Closed instance of C7 as amended. -/
theorem try_starting_poll_behavior_witness :
    try_starting [7] [] probeDown 5 = ⟨some 7, 0⟩ ∧
    try_starting [] [] probeDown 5 = ⟨none, 0⟩ ∧
    try_starting [] [9] probeDown 5 = ⟨some 9, 5⟩ ∧
    try_starting [] [9] (fun _ => ⟨true, false, false⟩) 5 = ⟨some 9, 1⟩ :=
  ⟨try_starting_poll_behavior.1 7 [] [] probeDown 5,
   try_starting_poll_behavior.2.1 probeDown 5,
   try_starting_poll_behavior.2.2.1 9 [] probeDown 5 (fun k hk => rfl),
   try_starting_poll_behavior.2.2.2 9 [] (fun _ => ⟨true, false, false⟩) 5 (by decide) rfl⟩

/-- C8 fails on the code: `alert_admins` has no exception handling, so when the
sends to admin "a" exhaust the retry budget and `http_request` raises
`ConnectionError`, the `for` loop aborts and admin "b" is never attempted. -/
theorem alert_admins_abort_counterexample :
    sendMessage tgNetCex 20 "a" = .connError ∧
    alert_admins tgNetCex 20 ["a", "b"] = .raisedConn ["a"] ∧
    ("b" : String) ∉ (["a"] : List String) := by decide

/-- C8 as amended: `alert_admins` attempts the admins in order; failures that
`http_request` absorbs internally do not block later admins, and every admin
is attempted when no send raises — but an escaping `ConnectionError` aborts
the broadcast, and the remaining admins are not attempted. -/
theorem alert_admins_sequential (net : String → Nat → TgResp) (fuel : Nat) :
    (∀ a : String, ∀ rest : List String, sendMessage net fuel a = .connError →
      alert_admins net fuel (a :: rest) = .raisedConn [a]) ∧
    (∀ admins : List String, (∀ a, a ∈ admins → ∃ v, sendMessage net fuel a = .ok v) →
      alert_admins net fuel admins = .completed admins) := by
  constructor
  · intro a rest h
    unfold alert_admins
    rw [h]
  · intro admins hall
    induction admins with
    | nil => rfl
    | cons a as ih =>
      obtain ⟨v, hv⟩ := hall a (List.mem_cons_self a as)
      unfold alert_admins
      rw [hv, ih (fun b hb => hall b (List.mem_cons_of_mem a hb))]

/-- Closed instance of C8 as amended. -/
theorem alert_admins_sequential_witness :
    alert_admins tgNetCex 20 ["a", "b"] = .raisedConn ["a"] ∧
    alert_admins tgNetOk 20 ["x", "y"] = .completed ["x", "y"] :=
  ⟨(alert_admins_sequential tgNetCex 20).1 "a" ["b"] (by decide),
   (alert_admins_sequential tgNetOk 20).2 ["x", "y"] (fun a ha => ⟨0, rfl⟩)⟩

/-- The recursion of `http_request` against a permanently 500-ing server never
terminates, whatever the fuel: the attempt counter is never incremented, so
the `_try > MAXIMUM_RETRIES` guard is never reached. -/
theorem http_request_500_aux (t : Nat) (ht : t ≤ MAXIMUM_RETRIES) :
    ∀ fuel reqIdx, ∀ d : ℚ,
      http_request tgServer500 fuel "POST" reqIdx t d = .outOfFuel := by
  intro fuel
  induction fuel with
  | zero => intro reqIdx d; rfl
  | succ f ih =>
    intro reqIdx d
    unfold http_request
    rw [if_neg (by omega), if_pos (Or.inr rfl)]
    exact ih (reqIdx + 1) (d * (11 / 10))

/-- C10: against a server that answers 500 to every request, `http_request`
never increments its attempt counter and never raises the five-attempt
`ConnectionError`: the recursion is unbounded (it exhausts any fuel), and each
retry only multiplies the delay by 1.1. -/
theorem http_request_500_unbounded (reqIdx t : Nat) (d : ℚ)
    (ht : t ≤ MAXIMUM_RETRIES) :
    (∀ fuel, http_request tgServer500 fuel "POST" reqIdx t d = .outOfFuel) ∧
    (∀ fuel, http_request tgServer500 (fuel + 1) "POST" reqIdx t d =
      http_request tgServer500 fuel "POST" (reqIdx + 1) t (d * (11 / 10))) := by
  constructor
  · intro fuel
    exact http_request_500_aux t ht fuel reqIdx d
  · intro fuel
    conv_lhs => unfold http_request
    rw [if_neg (by omega), if_pos (Or.inr rfl)]
    rfl

/-- Closed instance of C10 at `_try = 1`, `retry_delay = 1`. -/
theorem http_request_500_unbounded_witness :
    (1 : Nat) ≤ MAXIMUM_RETRIES ∧
    http_request tgServer500 9 "POST" 0 1 1 = .outOfFuel ∧
    http_request tgServer500 10 "POST" 0 1 1 =
      http_request tgServer500 9 "POST" 1 1 (1 * (11 / 10)) :=
  ⟨by decide,
   (http_request_500_unbounded 0 1 1 (by decide)).1 9,
   (http_request_500_unbounded 0 1 1 (by decide)).2 9⟩

/-- Unfolding of `splitGoF` at a separator match. -/
theorem splitGoF_succ_pos (c : Char) (cs : List Char) (f : Nat) (x : Char)
    (xs : List Char) (hp : (c :: cs).isPrefixOf (x :: xs) = true) :
    splitGoF c cs (f + 1) (x :: xs) = [] :: splitGoF c cs f (xs.drop cs.length) := by
  simp only [splitGoF]
  rw [if_pos hp]

/-- Unfolding of `splitGoF` at a non-matching head character. -/
theorem splitGoF_succ_neg (c : Char) (cs : List Char) (f : Nat) (x : Char)
    (xs : List Char) (hp : ¬ (c :: cs).isPrefixOf (x :: xs) = true) :
    splitGoF c cs (f + 1) (x :: xs) =
      (match splitGoF c cs f xs with
       | [] => [[x]]
       | h :: t => (x :: h) :: t) := by
  simp only [splitGoF]
  rw [if_neg hp]

/-- `splitGoF` does not depend on the fuel once it covers the input length. -/
theorem splitGoF_fuel_irrelevant (c : Char) (cs : List Char) :
    ∀ fuel₁, ∀ s : List Char, ∀ fuel₂, s.length ≤ fuel₁ → s.length ≤ fuel₂ →
      splitGoF c cs fuel₁ s = splitGoF c cs fuel₂ s := by
  intro fuel₁
  induction fuel₁ with
  | zero =>
    intro s fuel₂ h1 h2
    have hs : s = [] := List.eq_nil_of_length_eq_zero (by omega)
    subst hs
    cases fuel₂ <;> rfl
  | succ f ih =>
    intro s fuel₂ h1 h2
    cases s with
    | nil => cases fuel₂ <;> rfl
    | cons x xs =>
      cases fuel₂ with
      | zero => simp at h2
      | succ f2 =>
        by_cases hp : (c :: cs).isPrefixOf (x :: xs) = true
        · rw [splitGoF_succ_pos c cs f x xs hp, splitGoF_succ_pos c cs f2 x xs hp]
          rw [ih (xs.drop cs.length) f2 (by simp at h1 ⊢; omega) (by simp at h2 ⊢; omega)]
        · rw [splitGoF_succ_neg c cs f x xs hp, splitGoF_succ_neg c cs f2 x xs hp]
          rw [ih xs f2 (by simp at h1; omega) (by simp at h2; omega)]

/-- A run of the split worker produces the chunk before the first separator
occurrence, followed by the split of what comes after it. -/
theorem splitGoF_eq_chunk (c : Char) (cs : List Char) :
    ∀ fuel, ∀ s : List Char, s.length ≤ fuel →
      splitGoF c cs fuel s =
        chunkBefore c cs s ::
          (match tailAfter c cs s with
           | none => []
           | some r => splitGoF c cs (r.length + 1) r) := by
  intro fuel
  induction fuel with
  | zero =>
    intro s h
    have hs : s = [] := List.eq_nil_of_length_eq_zero (by omega)
    subst hs
    rfl
  | succ f ih =>
    intro s h
    cases s with
    | nil => rfl
    | cons x xs =>
      by_cases hp : (c :: cs).isPrefixOf (x :: xs) = true
      · rw [splitGoF_succ_pos c cs f x xs hp]
        simp only [chunkBefore, tailAfter]
        rw [if_pos hp, if_pos hp]
        simp only
        rw [splitGoF_fuel_irrelevant c cs f (xs.drop cs.length)
          ((xs.drop cs.length).length + 1) (by simp at h ⊢; omega) (by omega)]
      · rw [splitGoF_succ_neg c cs f x xs hp, ih xs (by simp at h; omega)]
        simp only [chunkBefore, tailAfter]
        rw [if_neg hp, if_neg hp]

/-- Index 1 of Python's `split(sep)` is the segment strictly between the first
separator occurrence and the next one (end of string when none). -/
theorem pySplitOn_get_one (c : Char) (cs : List Char) (s : List Char) :
    (pySplitOn (c :: cs) s).get? 1 = (tailAfter c cs s).map (chunkBefore c cs) := by
  simp only [pySplitOn]
  rw [splitGoF_eq_chunk c cs (s.length + 1) s (by omega)]
  cases ht : tailAfter c cs s with
  | none => simp
  | some r =>
    simp only
    rw [splitGoF_eq_chunk c cs (r.length + 1) r (by omega)]
    simp

/-- C9 fails on the code: on `"  Code: AB 12  "` the extraction lowercases the
text and removes every space, returning `"ab12"`, while the claim's reading —
the substring after the marker with surrounding whitespace trimmed — is
`"AB 12"`. -/
theorem extract_code_trim_counterexample :
    extract_code cexMsg = some ['a', 'b', '1', '2'] ∧
    spec_extract cexMsg = some ['A', 'B', ' ', '1', '2'] ∧
    extract_code cexMsg ≠ spec_extract cexMsg := by decide

/-- C9 as amended: for every accepted update the returned code is the segment
of the lowercased, end-stripped, space-stripped message lying strictly between
the first `"code:"` occurrence and the next one (end of text when none);
Scenario D's `"  cOdE: 12345678  "` still yields `"12345678"`. -/
theorem extract_code_characterization :
    (∀ msg : List Char, extract_code msg =
      if hasSub code_marker (pyLower msg) then
        (tailAfter 'c' ['o', 'd', 'e', ':']
            (pyRemoveSpaces (pyStrip (pyLower msg)))).map
          (chunkBefore 'c' ['o', 'd', 'e', ':'])
      else none) ∧
    extract_code scenarioMsg = some ['1', '2', '3', '4', '5', '6', '7', '8'] := by
  constructor
  · intro msg
    unfold extract_code
    by_cases hm : hasSub code_marker (pyLower msg) = true
    · rw [if_pos hm, if_pos hm]
      exact pySplitOn_get_one 'c' ['o', 'd', 'e', ':'] _
    · rw [if_neg hm, if_neg hm]
  · decide

end IBeam
